import Mathlib

/-!
Verification of the Metadata Resolution & Merge Engine of MusicVideoManager.

The definitions below are a shallow embedding of the Python sources
`scraping_worker.py` and `merge_dialog.py`.  Network interaction is modelled
by an `Env` structure holding, for each provider, the (already JSON-decoded)
payload the provider would answer with, plus the configured API credentials;
each adapter also reports the list of network calls it performs so that
temporal claims about which providers get contacted can be stated.

Python floats are modelled as exact fractions; Python strings as `String`
(lists of unicode scalars); Python `str.lower` / `\s` / `\d` are modelled on
the ASCII range, which is the range every concrete input in this file uses.
-/

/-- Characters stripped by Python `str.strip()` (ASCII whitespace range). -/
def isPySpace (c : Char) : Bool :=
  c = ' ' || c = '\t' || c = '\n' || c = '\x0d' || c = '\x0b' || c = '\x0c'

/-- Python `str.strip()` on the character list. -/
def pyStripList (l : List Char) : List Char :=
  ((l.dropWhile isPySpace).reverse.dropWhile isPySpace).reverse

/-- Python `str.strip()`. -/
def pyStrip (s : String) : String :=
  ⟨pyStripList s.data⟩

/-- Python `str.lower()` (ASCII range, like `Char.toLower`). -/
def pyLower (s : String) : String :=
  ⟨s.data.map Char.toLower⟩

/-- `re.sub(r'^[\s\-]+', '', s)`: drop leading whitespace and hyphens. -/
def lstripSpaceDash (s : String) : String :=
  ⟨s.data.dropWhile (fun c => isPySpace c || c = '-')⟩

/-- Python substring test `needle in hay` (contiguous substring). -/
def containsSub (hay needle : String) : Bool :=
  hay.data.tails.any (fun t => needle.data.isPrefixOf t)

/-- Python `s.replace(pat, "")` (all occurrences removed, left to right,
non-overlapping; an empty pattern leaves the string unchanged, just as
`s.replace("", "")` does).  Fuel-driven so that it is structurally
recursive; the fuel is the length of the list, which suffices because every
step consumes at least one character. -/
def removeAllFuel (pat : List Char) : Nat → List Char → List Char
  | 0, l => l
  | _ + 1, [] => []
  | fuel + 1, c :: rest =>
    if pat ≠ [] ∧ pat.isPrefixOf (c :: rest) then
      removeAllFuel pat fuel (List.drop pat.length (c :: rest))
    else
      c :: removeAllFuel pat fuel rest

/-- Python `s.replace(pat, "")`. -/
def pyRemove (s pat : String) : String :=
  ⟨removeAllFuel pat.data s.data.length s.data⟩

/-- The lazy part `.*?\)` of the parenthetical regex: scan for the first `)`
(`.` does not match a newline, so a newline before the `)` kills the
match).  Returns the remainder after the `)` on success. -/
def findCloseParen : List Char → Option (List Char)
  | [] => none
  | c :: rest =>
    if c = ')' then some rest
    else if c = '\n' then none
    else findCloseParen rest

/-- Try to match the regex `\s*\(.*?\)` at the head of the list; on success
return what remains after the match. -/
def parenMatchAt (l : List Char) : Option (List Char) :=
  match l.dropWhile isPySpace with
  | '(' :: rest => findCloseParen rest
  | _ => none

/-- `re.sub(r'\s*\(.*?\)', '', s)` over a character list, fuel-driven
(every match consumes at least the opening and closing parenthesis). -/
def stripParensFuel : Nat → List Char → List Char
  | 0, l => l
  | _ + 1, [] => []
  | fuel + 1, c :: rest =>
    match parenMatchAt (c :: rest) with
    | some remainder => stripParensFuel fuel remainder
    | none => c :: stripParensFuel fuel rest

/-- `re.sub(r'\s*\(.*?\)', '', s)`: remove parenthetical qualifiers. -/
def stripParens (s : String) : String :=
  ⟨stripParensFuel s.data.length s.data⟩

/-- Python `str.split(sep)` for a single-character separator. -/
def splitOnChar (c : Char) : List Char → List (List Char)
  | [] => [[]]
  | x :: rest =>
    let r := splitOnChar c rest
    if x = c then [] :: r
    else
      match r with
      | h :: t => (x :: h) :: t
      | [] => [[x]]

/-- `re.match(r"\d{4}-\d{2}-\d{2}", s)`: the pattern must match a prefix of
the string (Python `re.match` anchors only at the start). -/
def matchesDateRe (s : String) : Bool :=
  match s.data with
  | d1 :: d2 :: d3 :: d4 :: h1 :: d5 :: d6 :: h2 :: d7 :: d8 :: _ =>
    d1.isDigit && d2.isDigit && d3.isDigit && d4.isDigit && h1 = '-' &&
    d5.isDigit && d6.isDigit && h2 = '-' && d7.isDigit && d8.isDigit
  | _ => false

/-- Python `title.split(" - ", 1)`: split at the first occurrence of the
separator, returning both halves, or `none` when the separator is absent. -/
def splitFirstDash : List Char → Option (List Char × List Char)
  | [] => none
  | c :: rest =>
    if (' ' :: '-' :: ' ' :: []).isPrefixOf (c :: rest) then
      some ([], List.drop 3 (c :: rest))
    else
      (splitFirstDash rest).map (fun p => (c :: p.1, p.2))

/-!  ## difflib.SequenceMatcher

The source computes `SequenceMatcher(None, a, b).ratio()`.  With
`isjunk=None` the junk set is empty; the `autojunk` heuristic disables
"popular" elements only for `len(b) >= 200`.  The embedding below follows
`difflib.py`: `b2j`, `find_longest_match` (the inner dynamic program plus
the non-junk extension loops; the junk extension loops are dead because the
junk set is empty), and the recursive matching-block total that `ratio`
divides by the combined length. -/

/-- Indices of `b` mapped by `b2j` for character `c`: all positions of `c`,
unless `c` is "popular" under the autojunk heuristic. -/
def b2j (b : Array Char) (c : Char) : List Nat :=
  if b.size ≥ 200 ∧ (b.toList.count c) > b.size / 100 + 1 then []
  else (List.range b.size).filter (fun j => b.getD j ' ' = c)

/-- A match found by `find_longest_match`: start in `a`, start in `b`,
length. -/
structure Match3 where
  i : Nat
  j : Nat
  size : Nat
deriving Repr, DecidableEq

/-- Lookup in the `j2len` row (a finite map from `b`-index to run length,
defaulting to `0`). -/
def j2get (m : List (Nat × Nat)) (j : Nat) : Nat :=
  ((m.find? (fun p => p.1 = j)).map (fun p => p.2)).getD 0

/-- The dynamic program inside `find_longest_match`: for each `i` build the
new `j2len` row from `b2j` and keep the first strictly-longest run. -/
def flmInner (a b : Array Char) (alo ahi blo bhi : Nat) : Match3 :=
  (List.foldl
    (fun (st : List (Nat × Nat) × Match3) (i : Nat) =>
      let js := (b2j b (a.getD i ' ')).filter (fun j => blo ≤ j ∧ j < bhi)
      let newRow := js.map (fun j =>
        (j, (if j = 0 then 0 else j2get st.1 (j - 1)) + 1))
      let best := newRow.foldl
        (fun (bst : Match3) (jk : Nat × Nat) =>
          if jk.2 > bst.size then ⟨i + 1 - jk.2, jk.1 + 1 - jk.2, jk.2⟩ else bst)
        st.2
      (newRow, best))
    ([], ⟨alo, blo, 0⟩)
    (List.range' alo (ahi - alo))).2

/-- The backward extension loop of `find_longest_match` (the junk set is
empty, so only the equality test remains). -/
def extendBack (a b : Array Char) (alo blo : Nat) : Nat → Match3 → Match3
  | 0, m => m
  | fuel + 1, m =>
    if m.i > alo ∧ m.j > blo ∧ a.getD (m.i - 1) ' ' = b.getD (m.j - 1) ' ' then
      extendBack a b alo blo fuel ⟨m.i - 1, m.j - 1, m.size + 1⟩
    else m

/-- The forward extension loop of `find_longest_match`. -/
def extendFwd (a b : Array Char) (ahi bhi : Nat) : Nat → Match3 → Match3
  | 0, m => m
  | fuel + 1, m =>
    if m.i + m.size < ahi ∧ m.j + m.size < bhi ∧
        a.getD (m.i + m.size) ' ' = b.getD (m.j + m.size) ' ' then
      extendFwd a b ahi bhi fuel ⟨m.i, m.j, m.size + 1⟩
    else m

/-- `find_longest_match` for `isjunk=None`. -/
def findLongestMatch (a b : Array Char) (alo ahi blo bhi : Nat) : Match3 :=
  extendFwd a b ahi bhi (ahi + bhi)
    (extendBack a b alo blo (alo + ahi) (flmInner a b alo ahi blo bhi))

/-- Total number of matched characters over all matching blocks (the sum
`get_matching_blocks` produces), computed by the same divide-and-conquer
recursion, fuel-driven. -/
def matchSum (a b : Array Char) : Nat → Nat → Nat → Nat → Nat → Nat
  | 0, _, _, _, _ => 0
  | fuel + 1, alo, ahi, blo, bhi =>
    let m := findLongestMatch a b alo ahi blo bhi
    if m.size = 0 then 0
    else
      matchSum a b fuel alo m.i blo m.j + m.size +
        matchSum a b fuel (m.i + m.size) ahi (m.j + m.size) bhi

/-- A Python float that is an exact nonnegative fraction.  Every similarity
score the source computes is of the form `2*matched / (len(a)+len(b))`, so
scores are modelled exactly as numerator/denominator pairs (denominator
never `0` at any construction site) and compared by cross-multiplication. -/
structure Score where
  num : Nat
  den : Nat
deriving Repr, DecidableEq

/-- `x < y` for scores, by cross-multiplication. -/
def scoreLt (x y : Score) : Bool :=
  x.num * y.den < y.num * x.den

/-- `x ≤ y` for scores, by cross-multiplication. -/
def scoreLe (x y : Score) : Bool :=
  x.num * y.den ≤ y.num * x.den

/-- `x == y` for scores, by cross-multiplication. -/
def scoreEq (x y : Score) : Bool :=
  x.num * y.den = y.num * x.den

/-- The float `1.0`. -/
def scoreOne : Score := ⟨1, 1⟩

/-- The float `0.0`. -/
def scoreZero : Score := ⟨0, 1⟩

/-- The acceptance threshold `0.7`. -/
def gateScore : Score := ⟨7, 10⟩

/-- `SequenceMatcher(None, a, b).ratio()`:
`2.0 * matches / (len(a) + len(b))`, and `1.0` when both are empty. -/
def smRatio (sa sb : String) : Score :=
  let a := sa.data.toArray
  let b := sb.data.toArray
  let matched := matchSum a b (a.size + b.size + 1) 0 a.size 0 b.size
  if a.size + b.size = 0 then scoreOne
  else ⟨2 * matched, a.size + b.size⟩

/-!  ## check_similarity (scraping_worker.py, lines 286-304) -/

/-- The normalisation phase of `check_similarity`: strip parentheticals from
the query, lower-case and trim both, and, when an artist is given (and
truthy), delete the artist's name from both sides and strip a leading
separator.  Returns `(clean_query, clean_result)`. -/
def simNorm (query result : String) (artist : Option String) : String × String :=
  let cq := pyStrip (pyLower (stripParens query))
  let cr := pyStrip (pyLower result)
  match artist with
  | some art =>
    if art ≠ "" then
      let al := pyStrip (pyLower art)
      (lstripSpaceDash (pyStrip (pyRemove cq al)),
       lstripSpaceDash (pyStrip (pyRemove cr al)))
    else (cq, cr)
  | none => (cq, cr)

/-- `ScrapingWorker.check_similarity(query, result, artist)`. -/
def checkSimilarity (query result : String) (artist : Option String) : Score :=
  if query = "" ∨ result = "" then scoreZero
  else
    let p := simNorm query result artist
    if p.1 ≠ "" ∧ p.2 ≠ "" ∧ (containsSub p.2 p.1 || containsSub p.1 p.2) then
      scoreOne
    else smRatio p.1 p.2

example : checkSimilarity "Master of Puppets" "Metallica - Master of Puppets"
    (some "Metallica") = scoreOne := by decide

example : scoreEq (checkSimilarity "(Live)" "(Live)" none) scoreZero = true := by decide

example : scoreEq (checkSimilarity "A (X) B" "A (X) B" none) ⟨3, 5⟩ = true := by decide

example : scoreLt (checkSimilarity "A (X) B" "A (X) B" none) gateScore = true := by decide

example : checkSimilarity "Queen" "Queen" (some "Queen") = scoreOne := by decide

/-!  ## _clean_discogs_title (scraping_worker.py, lines 429-462) -/

/-- One character of `unicodedata.normalize('NFD', s)` with combining marks
(category `Mn`) removed: an accented Latin-1 letter decomposes into its base
letter plus a combining mark, so it folds to the base letter.  The table is
the Latin-1 block the application's artist names use; every other character
is its own NFD normal form. -/
def accentFold (c : Char) : Char :=
  match c with
  | 'à' | 'á' | 'â' | 'ã' | 'ä' | 'å' => 'a'
  | 'è' | 'é' | 'ê' | 'ë' => 'e'
  | 'ì' | 'í' | 'î' | 'ï' => 'i'
  | 'ò' | 'ó' | 'ô' | 'õ' | 'ö' => 'o'
  | 'ù' | 'ú' | 'û' | 'ü' => 'u'
  | 'ý' | 'ÿ' => 'y'
  | 'ñ' => 'n'
  | 'ç' => 'c'
  | 'À' | 'Á' | 'Â' | 'Ã' | 'Ä' | 'Å' => 'A'
  | 'È' | 'É' | 'Ê' | 'Ë' => 'E'
  | 'Ì' | 'Í' | 'Î' | 'Ï' => 'I'
  | 'Ò' | 'Ó' | 'Ô' | 'Õ' | 'Ö' => 'O'
  | 'Ù' | 'Ú' | 'Û' | 'Ü' => 'U'
  | 'Ý' => 'Y'
  | 'Ñ' => 'N'
  | 'Ç' => 'C'
  | other => other

/-- The local `normalize` helper of `_clean_discogs_title`: strip accents,
then lower-case. -/
def discogsNormalize (s : String) : String :=
  ⟨(s.data.map accentFold).map Char.toLower⟩

/-- `ScrapingWorker._clean_discogs_title(title, artist)`: remove a leading
`"Artist - "` prefix from a Discogs release title when the prefix matches
the artist up to accents and case, exactly or with similarity above 0.75. -/
def cleanDiscogsTitle (title artist : String) : String :=
  if title = "" ∨ artist = "" then title
  else
    match splitFirstDash title.data with
    | none => title
    | some p =>
      let potentialArtist := pyStrip ⟨p.1⟩
      let realTitle := pyStrip ⟨p.2⟩
      let normPotential := discogsNormalize potentialArtist
      let normArtist := discogsNormalize artist
      if normPotential = normArtist then realTitle
      else if scoreLt ⟨3, 4⟩ (smRatio normPotential normArtist) then realTitle
      else title

example : cleanDiscogsTitle "Björk - Army Of Me" "Bjork" = "Army Of Me" := by decide

example : cleanDiscogsTitle "AC - DC Live" "Metallica" = "AC - DC Live" := by decide

/-!  ## Data model

The Python code passes metadata around as `dict`s.  The embedding fixes the
field sets those dicts actually carry.  A JSON value that can be `null` or
missing is an `Option`; a string field whose only use is Python truthiness
is a plain `String` with `""` for the falsy values. -/

/-- The first TMDB search result, as consumed by `fetch_tmdb_data`
(`""` models a missing/null JSON field). -/
structure TmdbMovie where
  title : String
  overview : String
  releaseDate : String
  posterPath : String
  backdropPath : String
deriving Repr, DecidableEq

/-- The first TheAudioDB track, as consumed by `fetch_theaudiodb_data`. -/
structure TadbTrack where
  strTrack : String
  strArtist : Option String
  strAlbum : String
  strDescriptionEN : String
  intYear : Option String
  strMusicVidDirector : Option String
  strGenre : String
  strAlbumThumb : Option String
  strTrackThumb : Option String
  strMusicBrainzArtistID : Option String
deriving Repr, DecidableEq

/-- The first Discogs search result, as consumed by `fetch_discogs_data`. -/
structure DiscogsResult where
  title : Option String
  year : String
  genre : List String
  coverImage : String
  thumb : String
deriving Repr, DecidableEq

/-- The image pair `fetch_fanart_data` extracts from a Fanart.tv answer. -/
structure FanartImages where
  posterUrl : String
  fanartUrl : String
deriving Repr, DecidableEq

/-- A metadata record (the `dict` built by the adapters and the waterfall).
`posterUrl`/`fanartUrl` are `Option String` because the waterfall's local
`poster_url`/`fanart_url` variables start as Python `None`; `isConcert` and
`isMusicVideo` model the `is_concert`/`is_musicvideo` keys (`false` when the
producing dict does not carry the key). -/
structure MetaRec where
  isConcert : Bool
  isMusicVideo : Bool
  title : String
  artist : String
  album : String
  plot : String
  year : String
  director : String
  genre : String
  posterUrl : Option String
  fanartUrl : Option String
  mbid : Option String
deriving Repr, DecidableEq

/-- One network call a provider adapter performs. -/
inductive Call where
  | tmdb
  | tadb
  | discogs
  | fanart
  | setlistDate
  | setlistTour
deriving Repr, DecidableEq

/-- The environment of one scraping session: the configured credentials
(`""` models an absent key) and, for each provider, the decoded payload its
endpoint would answer with (`none` models "no result", a transport error, a
non-200 status, or a JSON shape mismatch — all of which the source treats
alike).  `wikiPage` maps a page title to the page summary when the page
exists. -/
structure Env where
  tmdbKey : String
  fanartKey : String
  discogsKey : String
  discogsSecret : String
  setlistKey : String
  tadbKey : String
  wikipediaAvailable : Bool
  tmdbResp : Option TmdbMovie
  tadbResp : Option TadbTrack
  discogsResp : Option DiscogsResult
  fanartResp : Option FanartImages
  setlistDateResp : Option String
  setlistTourResp : Option String
  wikiPage : String → Option String

/-- Python truthiness of an optional string. -/
def optTruthy (o : Option String) : Bool :=
  o.getD "" ≠ ""

/-!  ## Provider adapters (scraping_worker.py, lines 464-660)

Each adapter returns its result together with the list of network requests
it issues.  `fetch_tmdb_data`, `fetch_theaudiodb_data` and
`fetch_discogs_data` contact their endpoint unconditionally;
`fetch_fanart_data` and the two setlist fetchers first check their API key
and return `None` without any request when it is absent. -/

/-- `ScrapingWorker.fetch_tmdb_data(artist, title)`. -/
def fetchTmdbData (env : Env) (artist title : String) :
    Option MetaRec × List Call :=
  (match env.tmdbResp with
   | none => none
   | some movie =>
     let foundTitle := movie.title
     if scoreLt (checkSimilarity title foundTitle (some artist)) gateScore then none
     else
       some
         { isConcert := true
           isMusicVideo := false
           title := foundTitle
           artist := artist
           album := ""
           plot := movie.overview
           year := ((splitOnChar '-' movie.releaseDate.data).headD []).asString
           director := ""
           genre := "Concert"
           posterUrl :=
             some (if movie.posterPath ≠ "" then
               "https://image.tmdb.org/t/p/original" ++ movie.posterPath else "")
           fanartUrl :=
             some (if movie.backdropPath ≠ "" then
               "https://image.tmdb.org/t/p/original" ++ movie.backdropPath else "")
           mbid := none },
   [Call.tmdb])

/-- `ScrapingWorker.fetch_theaudiodb_data(artist, title)`.  Note that the
function performs no credential check at all before the request. -/
def fetchTheaudiodbData (env : Env) (artist title : String) :
    Option MetaRec × List Call :=
  (match env.tadbResp with
   | none => none
   | some track =>
     let foundTitle := track.strTrack
     if scoreLt (checkSimilarity title foundTitle (some artist)) gateScore then none
     else
       some
         { isConcert := false
           isMusicVideo := false
           title := foundTitle
           artist := track.strArtist.getD artist
           album := track.strAlbum
           plot := track.strDescriptionEN
           year := track.intYear.getD ""
           director := track.strMusicVidDirector.getD ""
           genre := track.strGenre
           posterUrl := some (track.strAlbumThumb.getD "")
           fanartUrl := some (track.strTrackThumb.getD "")
           mbid := track.strMusicBrainzArtistID },
   [Call.tadb])

/-- `ScrapingWorker.fetch_discogs_data(artist, title)`. -/
def fetchDiscogsData (env : Env) (artist title : String) :
    Option MetaRec × List Call :=
  (match env.discogsResp with
   | none => none
   | some result =>
     let rawTitle := result.title.getD title
     let discogsTitle := cleanDiscogsTitle rawTitle artist
     if scoreLt (checkSimilarity title discogsTitle (some artist)) gateScore then none
     else
       let genre := match result.genre with
         | [] => "Music"
         | g :: _ => g
       let coverImage := if result.coverImage ≠ "" then result.coverImage else result.thumb
       some
         { isConcert := false
           isMusicVideo := false
           title := discogsTitle
           artist := artist
           album := ""
           plot := "Release from Discogs: " ++ discogsTitle
           year := result.year
           director := ""
           genre := genre
           posterUrl := some coverImage
           fanartUrl := some ""
           mbid := none },
   [Call.discogs])

/-- `ScrapingWorker.fetch_fanart_data(mbid)`: an absent key short-circuits
to `None` with no request; the 5xx retry loop is collapsed into the single
logical answer the environment holds. -/
def fetchFanartData (env : Env) (mbid : String) :
    Option FanartImages × List Call :=
  if env.fanartKey = "" then (none, [])
  else (env.fanartResp, [Call.fanart])

/-- `ScrapingWorker.fetch_setlistfm_by_date(artist, date_str)`: an absent
key short-circuits with no request; a date that does not split into three
`-`-separated parts raises `IndexError`, which the function catches and
turns into `None` before any request. -/
def fetchSetlistByDate (env : Env) (artist dateStr : String) :
    Option String × List Call :=
  if env.setlistKey = "" then (none, [])
  else if (splitOnChar '-' dateStr.data).length < 3 then (none, [])
  else (env.setlistDateResp, [Call.setlistDate])

/-- `ScrapingWorker.fetch_setlistfm_by_tour(artist, tour_name, year)`: an
absent key short-circuits with no request. -/
def fetchSetlistByTour (env : Env) (artist tourName year : String) :
    Option String × List Call :=
  if env.setlistKey = "" then (none, [])
  else (env.setlistTourResp, [Call.setlistTour])

/-!  ## Waterfall orchestrator: scrape_metadata (scraping_worker.py, 306-427) -/

/-- The stop-word stripping of the TMDB title before the tour-name setlist
search: each buzzword is removed everywhere and the result trimmed. -/
def stopwordStrip (t : String) : String :=
  ["Live", "The Movie", "Concert", "Film", "Tour"].foldl
    (fun s bw => pyStrip (pyRemove s bw)) t

/-- Step 1 of the waterfall: TMDB lookup plus optional setlist attachment.
Returns `(some record, log)` exactly when `scrape_metadata` returns on its
TMDB path; `(none, log)` when the waterfall falls through to step 2. -/
def scrapeTmdbPhase (env : Env) (artist title : String) (date : Option String) :
    Option MetaRec × List Call :=
  if env.tmdbKey = "" then (none, [])
  else
    let fd := fetchTmdbData env artist title
    match fd.1 with
    | none => (none, fd.2)
    | some d =>
      let ds := date.getD ""
      let p1 :=
        if ds ≠ "" ∧ matchesDateRe ds then fetchSetlistByDate env artist ds
        else (none, [])
      let p2 :=
        if optTruthy p1.1 then (p1.1, ([] : List Call))
        else
          let cleanTitle := stopwordStrip d.title
          if cleanTitle ≠ "" then fetchSetlistByTour env artist cleanTitle d.year
          else (none, [])
      let d' :=
        if optTruthy p2.1 then
          { d with plot := d.plot ++ "\n\n[SETLIST]\n" ++ p2.1.getD "" }
        else d
      (some d', fd.2 ++ p1.2 ++ p2.2)

/-- Step 3 of the waterfall (`STEP 4` in the logs): fill missing images
from Fanart.tv when metadata was found, an MBID is known and the key is
configured. -/
def fanartFill (env : Env) (found : Bool) (poster fanart mbid : Option String) :
    Option String × Option String × List Call :=
  if found ∧ (¬ optTruthy poster ∨ ¬ optTruthy fanart) then
    if optTruthy mbid ∧ env.fanartKey ≠ "" then
      let p := fetchFanartData env (mbid.getD "")
      match p.1 with
      | some fd =>
        ((if ¬ optTruthy poster then some fd.posterUrl else poster),
         (if ¬ optTruthy fanart then some fd.fanartUrl else fanart), p.2)
      | none => (poster, fanart, p.2)
    else (poster, fanart, [])
  else (poster, fanart, [])

/-- Step 4 of the waterfall (`STEP 5` in the logs): recover a poster from
Discogs when metadata was found but no poster; re-queries Discogs when step
2 did not (guarding only on `discogs_key`, not on the secret). -/
def discogsRecovery (env : Env) (artist title : String) (found : Bool)
    (poster : Option String) (discogsData : Option MetaRec) :
    Option String × List Call :=
  if found ∧ ¬ optTruthy poster then
    let p :=
      if discogsData.isNone ∧ env.discogsKey ≠ "" then fetchDiscogsData env artist title
      else (discogsData, [])
    match p.1 with
    | some dg =>
      ((if optTruthy dg.posterUrl then dg.posterUrl else poster), p.2)
    | none => (poster, p.2)
  else (poster, [])

/-- Steps 2-5 of the waterfall: the music-video fallback group
(TheAudioDB, then Discogs, then image completion), assembling the
`nfo_data` dict that starts as `{"is_concert": False, "is_musicvideo":
True}` and is updated with the accepting adapter's record. -/
def scrapeFallbackPhase (env : Env) (artist title : String) :
    Option MetaRec × List Call :=
  let tadb := fetchTheaudiodbData env artist title
  let found0 : Option MetaRec := tadb.1.map (fun td => { td with isMusicVideo := true })
  let poster0 : Option String := match tadb.1 with
    | some td => td.posterUrl
    | none => none
  let fanart0 : Option String := match tadb.1 with
    | some td => td.fanartUrl
    | none => none
  let mbid0 : Option String := match tadb.1 with
    | some td => td.mbid
    | none => none
  let discogsPair :=
    if found0.isNone ∧ env.discogsKey ≠ "" ∧ env.discogsSecret ≠ "" then
      fetchDiscogsData env artist title
    else (none, [])
  let found1 : Option MetaRec :=
    match found0 with
    | some m => some m
    | none => discogsPair.1.map (fun dg => { dg with isMusicVideo := true })
  let poster1 : Option String :=
    match found0, discogsPair.1 with
    | none, some dg => dg.posterUrl
    | _, _ => poster0
  let imgs := fanartFill env found1.isSome poster1 fanart0 mbid0
  let rec2 := discogsRecovery env artist title found1.isSome imgs.1 discogsPair.1
  (found1.map (fun m => { m with posterUrl := rec2.1, fanartUrl := imgs.2.1 }),
   tadb.2 ++ discogsPair.2 ++ imgs.2.2 ++ rec2.2)

/-- `ScrapingWorker.scrape_metadata(artist, title, date)`: the Supreme
Waterfall.  Returns the resolved record (or `None`) and the full list of
network calls performed, in order. -/
def scrapeMetadata (env : Env) (artist title : String) (date : Option String) :
    Option MetaRec × List Call :=
  let ph := scrapeTmdbPhase env artist title date
  match ph.1 with
  | some d => (some d, ph.2)
  | none =>
    let fb := scrapeFallbackPhase env artist title
    (fb.1, ph.2 ++ fb.2)

/-!  ## Enrichment pipeline: deep_enrich_data (scraping_worker.py, 662-815) -/

/-- The music-domain keywords the Wikipedia summary must contain. -/
def wikiKeywords : List String :=
  ["album", "song", "concerto", "band", "canzone", "brano", "singolo",
   "gruppo", "musica", "rock", "pop", "metal", "jazz", "disco", "tour"]

/-- The Wikipedia lookup loop: try each candidate page title in order;
accept the first existing page that is not a disambiguation page and whose
summary contains a music-domain keyword. -/
def wikiLookup (env : Env) : List String → Option String
  | [] => none
  | q :: rest =>
    match env.wikiPage q with
    | none => wikiLookup env rest
    | some summary =>
      if containsSub (pyLower summary) "may refer to" ||
          containsSub (pyLower summary) "può riferirsi a" then
        wikiLookup env rest
      else if wikiKeywords.any (fun k => containsSub (pyLower summary) k) then
        some summary
      else wikiLookup env rest

/-- The record shape `deep_enrich_data` works on (a manually selected
candidate dict).  String fields use `""` for the falsy values; `isConcert`
is optional because `enriched.get("is_concert", True)` defaults a missing
key to `True`. -/
structure EnrichRec where
  artist : String
  title : String
  album : String
  year : String
  plot : String
  posterUrl : String
  fanartUrl : String
  mbid : Option String
  isConcert : Option Bool
  date : String
  releaseDate : String
deriving Repr, DecidableEq

/-- Enrichment step 1: when year, album or poster is missing and the
Discogs key pair is configured, fill exactly the still-missing ones from a
Discogs lookup. -/
def enrichDiscogsStep (env : Env) (artist title : String) (e : EnrichRec) : EnrichRec :=
  if (e.year = "" ∨ e.album = "" ∨ e.posterUrl = "") ∧
      env.discogsKey ≠ "" ∧ env.discogsSecret ≠ "" then
    match (fetchDiscogsData env artist title).1 with
    | some dg =>
      { e with
        year := if e.year = "" ∧ dg.year ≠ "" then dg.year else e.year
        album := if e.album = "" ∧ dg.title ≠ "" then dg.title else e.album
        posterUrl :=
          if e.posterUrl = "" ∧ optTruthy dg.posterUrl then dg.posterUrl.getD ""
          else e.posterUrl }
    | none => e
  else e

/-- Enrichment step 2: when the plot is missing or shorter than 50
characters, replace it with the first acceptable Wikipedia summary. -/
def enrichWikiStep (env : Env) (artist title : String) (e : EnrichRec) : EnrichRec :=
  if env.wikipediaAvailable ∧ (e.plot = "" ∨ e.plot.length < 50) then
    match wikiLookup env
        [artist ++ " " ++ title ++ " (song)", title ++ " (song)", title] with
    | some summary => { e with plot := summary }
    | none => e
  else e

/-- Enrichment step 3, the setlist step.  The guard skips the step when the
record is not concert-classified or the plot already carries a setlist
marker.  The fetched value is the formatted *string* the setlist fetchers
return, yet the code then asks `"sets" in setlist_data and "set" in
setlist_data["sets"]`: on a string the first test is a substring test, and
when it succeeds the subscript raises `TypeError` (modelled as
`Except.error`); when it fails no song is collected and nothing is
appended. -/
def setlistLookup (env : Env) (artist title year : String) (e : EnrichRec) :
    Option String :=
  let fullDate := if e.date ≠ "" then e.date else e.releaseDate
  let sd0 : Option String :=
    if fullDate ≠ "" ∧ matchesDateRe fullDate then
      (fetchSetlistByDate env artist fullDate).1
    else none
  if optTruthy sd0 then sd0 else (fetchSetlistByTour env artist title year).1

/-- The song-extraction and append of the setlist step (see the comment
above `setlistLookup`, which performs its lookup half). -/
def enrichSetlistStep (env : Env) (artist title year : String) (e : EnrichRec) :
    Except Unit EnrichRec :=
  let isConcert := e.isConcert.getD true
  if isConcert ∧ ¬ containsSub e.plot "[SETLIST]" ∧ ¬ containsSub e.plot "[SCALETTA" then
    match setlistLookup env artist title year e with
    | some text =>
      if text ≠ "" then
        if containsSub text "sets" then Except.error ()
        else Except.ok e
      else Except.ok e
    | none => Except.ok e
  else Except.ok e

/-- Enrichment step 4: when poster or fanart is missing and an MBID is
known, fill exactly the missing URL(s) from Fanart.tv. -/
def enrichFanartStep (env : Env) (e : EnrichRec) : EnrichRec :=
  if e.posterUrl = "" ∨ e.fanartUrl = "" then
    if optTruthy e.mbid then
      match (fetchFanartData env (e.mbid.getD "")).1 with
      | some fd =>
        { e with
          posterUrl := if e.posterUrl = "" then fd.posterUrl else e.posterUrl
          fanartUrl := if e.fanartUrl = "" then fd.fanartUrl else e.fanartUrl }
      | none => e
    else e
  else e

/-- `ScrapingWorker.deep_enrich_data(seed_data)`.  The local variables
`artist`, `title` and `year` are read once at entry, so the setlist step
uses the *original* year even when step 1 recovered a year from Discogs. -/
def deepEnrichData (env : Env) (seed : EnrichRec) : Except Unit EnrichRec :=
  if seed.artist = "" ∨ seed.title = "" then Except.ok seed
  else
    let e1 := enrichDiscogsStep env seed.artist seed.title seed
    let e2 := enrichWikiStep env seed.artist seed.title e1
    match enrichSetlistStep env seed.artist seed.title seed.year e2 with
    | Except.error u => Except.error u
    | Except.ok e3 => Except.ok (enrichFanartStep env e3)

/-!  ## Merge resolver (merge_dialog.py) -/

/-- A Python dict of string values, as a partial map (`populate_table`
stringifies values with `str()`; values are modelled post-`str()`). -/
def StrDict : Type := String → Option String

/-- The fixed field set of `MergeDialog.fields_map`, in row order. -/
def mergeFieldsList : List String :=
  ["artist", "title", "album", "year", "plot", "poster_url", "fanart_url"]

/-- The smart-checkbox logic of `MergeDialog.populate_table` for one field:
given the two dicts and a key, compute `(checked, enabled)` of the
overwrite checkbox from the trimmed values. -/
def populateDefaults (current new : StrDict) (key : String) : Bool × Bool :=
  let valCurrent := pyStrip ((current key).getD "")
  let valNew := pyStrip ((new key).getD "")
  if valNew = "" then (false, false)
  else if valCurrent = valNew then (false, false)
  else if valCurrent = "" then (true, true)
  else (false, true)

/-- `dict[k] = v`. -/
def dictInsert (d : StrDict) (k v : String) : StrDict :=
  fun k' => if k' = k then some v else d k'

/-- `MergeDialog.get_merged_data()`: start from a copy of the current dict
and, for every field of the fixed map whose checkbox is checked, write the
new dict's value (`new_data.get(key, "")`). -/
def getMergedData (current new : StrDict) (overwrite : String → Bool) : StrDict :=
  mergeFieldsList.foldl
    (fun acc key => if overwrite key then dictInsert acc key ((new key).getD "") else acc)
    current

/-!  ## Helper lemmas -/

/-- If `x < y` fails under cross-multiplication then `y ≤ x`. -/
theorem scoreLe_of_not_lt (x y : Score) (h : scoreLt x y = false) :
    scoreLe y x = true := by
  unfold scoreLt at h
  unfold scoreLe
  simp only [decide_eq_false_iff_not, decide_eq_true_eq, not_lt] at h ⊢
  omega

/-- A list is a prefix of itself (boolean version). -/
theorem isPrefixOf_self (l : List Char) : l.isPrefixOf l = true := by
  induction l with
  | nil => rfl
  | cons c cs ih => simp [List.isPrefixOf, ih]

/-- Every string contains itself as a substring. -/
theorem containsSub_self (s : String) : containsSub s s = true := by
  unfold containsSub
  cases h : s.data with
  | nil => rfl
  | cons c cs =>
    simp only [List.tails, List.any_cons, Bool.or_eq_true]
    exact Or.inl (isPrefixOf_self (c :: cs))

/-- `smRatio` of two empty strings is `1.0` (difflib returns `1.0` for a
zero combined length). -/
theorem smRatio_empty : smRatio "" "" = scoreOne := rfl

/-- The lookup a `getMergedData` fold produces: the new value where the key
was visited with its toggle on, the accumulator's value otherwise. -/
theorem mergeFoldLookup (new : StrDict) (overwrite : String → Bool) :
    ∀ (l : List String) (acc : StrDict) (k : String),
      (l.foldl
        (fun acc key =>
          if overwrite key then dictInsert acc key ((new key).getD "") else acc)
        acc) k
      = if k ∈ l ∧ overwrite k = true then some ((new k).getD "") else acc k := by
  intro l
  induction l with
  | nil =>
    intro acc k
    simp
  | cons x xs ih =>
    intro acc k
    simp only [List.foldl_cons]
    rw [ih]
    by_cases hmem : k ∈ xs ∧ overwrite k = true
    · simp [hmem, hmem.1, hmem.2]
    · rw [if_neg hmem]
      by_cases hkx : k = x
      · subst hkx
        by_cases hok : overwrite k = true
        · simp [hok, dictInsert]
        · simp [hok, dictInsert]
      · by_cases hox : overwrite x = true
        · have : ¬ (k ∈ x :: xs ∧ overwrite k = true) := by
            intro hc
            rcases hc with ⟨hin, hkt⟩
            rcases List.mem_cons.mp hin with h | h
            · exact hkx h
            · exact hmem ⟨h, hkt⟩
          rw [if_neg this]
          simp [hox, dictInsert, hkx]
        · have : ¬ (k ∈ x :: xs ∧ overwrite k = true) := by
            intro hc
            rcases hc with ⟨hin, hkt⟩
            rcases List.mem_cons.mp hin with h | h
            · subst h; exact hox hkt
            · exact hmem ⟨h, hkt⟩
          rw [if_neg this]
          simp [hox]

/-!  ## Claim C9 -/

/-- C9: the final merge outputs, for each field of the fixed field map, the
new value (`new_data.get(key, "")`) when that field's overwrite toggle is
on and the current value otherwise, and every key outside the field map
passes through from the current map unchanged. -/
theorem C9_merged_data (current new : StrDict) (overwrite : String → Bool)
    (k : String) :
    getMergedData current new overwrite k =
      if k ∈ mergeFieldsList ∧ overwrite k = true then some ((new k).getD "")
      else current k := by
  unfold getMergedData
  exact mergeFoldLookup new overwrite mergeFieldsList current k

/-!  ## Claim C3 -/

/-- C3: the merge resolver's per-field checkbox defaults, on the trimmed
values: an empty or unchanged new value forces the overwrite off and
disables the checkbox; a new value filling an empty current value defaults
the overwrite on and keeps it toggleable; two non-empty different values
default the overwrite off but keep it toggleable.  The pair is
`(checked, enabled)`. -/
theorem C3_merge_defaults (current new : StrDict) (key : String) :
    ((pyStrip ((new key).getD "") = "" ∨
        pyStrip ((new key).getD "") = pyStrip ((current key).getD "")) →
      populateDefaults current new key = (false, false)) ∧
    ((pyStrip ((current key).getD "") = "" ∧ pyStrip ((new key).getD "") ≠ "") →
      populateDefaults current new key = (true, true)) ∧
    ((pyStrip ((current key).getD "") ≠ "" ∧ pyStrip ((new key).getD "") ≠ "" ∧
        pyStrip ((current key).getD "") ≠ pyStrip ((new key).getD "")) →
      populateDefaults current new key = (false, true)) := by
  unfold populateDefaults
  refine ⟨?_, ?_, ?_⟩
  · intro h
    rcases h with h | h
    · simp [h]
    · by_cases hn : pyStrip ((new key).getD "") = ""
      · simp [hn]
      · rw [if_neg hn, if_pos h.symm]
  · intro h
    rcases h with ⟨hc, hn⟩
    rw [if_neg hn, if_neg (by rw [hc]; exact fun hh => hn hh.symm), if_pos hc]
  · intro h
    rcases h with ⟨hc, hn, hne⟩
    rw [if_neg hn, if_neg hne, if_neg hc]

/-- Witness for C3, the spec's own scenario: current year `""`, new year
`"1991"` defaults the overwrite on; equal album values force it off. -/
theorem C3_merge_defaults_witness :
    populateDefaults (fun k => if k = "year" then some "" else some "Nevermind")
        (fun k => if k = "year" then some "1991" else some "Nevermind") "year"
      = (true, true) ∧
    populateDefaults (fun k => if k = "year" then some "" else some "Nevermind")
        (fun k => if k = "year" then some "1991" else some "Nevermind") "album"
      = (false, false) := by
  constructor
  · exact (C3_merge_defaults _ _ "year").2.1 ⟨by decide, by decide⟩
  · exact (C3_merge_defaults _ _ "album").1 (Or.inr (by decide))

/-!  ## Claim C7 (corrected) -/

/-- Counterexample to C7 as stated: for the equal pair
`query = candidate = "(Live)"` the score is `0.0`, not `1.0`: parenthetical
stripping empties the query, the substring shortcut requires both
normalized strings to be non-empty, and the sequence ratio of `""` against
`"(live)"` is `0.0`.  (The second conjunct refutes the claim for equal
empty titles as well: the falsy-input guard returns `0.0`.) -/
theorem C7_counterexample :
    scoreEq (checkSimilarity "(Live)" "(Live)" none) scoreOne = false ∧
    scoreEq (checkSimilarity "" "" none) scoreOne = false := by
  constructor <;> decide

/-- C7 (amended): `check_similarity` returns `1.0` for a candidate title
equal to a non-empty query title *provided parenthetical stripping leaves
the query unchanged*, and returns `1.0` whenever, after normalization, both
strings are non-empty and one is a substring of the other. -/
theorem C7_similarity_one (q r : String) (a : Option String) :
    (r = q → stripParens q = q → q ≠ "" → checkSimilarity q r a = scoreOne) ∧
    (q ≠ "" → r ≠ "" →
      (simNorm q r a).1 ≠ "" → (simNorm q r a).2 ≠ "" →
      (containsSub (simNorm q r a).2 (simNorm q r a).1 ||
        containsSub (simNorm q r a).1 (simNorm q r a).2) = true →
      checkSimilarity q r a = scoreOne) := by
  constructor
  · intro hrq hstrip hq
    subst hrq
    have hp : (simNorm r r a).1 = (simNorm r r a).2 := by
      unfold simNorm
      rw [hstrip]
      cases a with
      | none => rfl
      | some art =>
        by_cases hart : art = ""
        · simp [hart]
        · simp [hart]
    unfold checkSimilarity
    rw [if_neg (by simp [hq])]
    by_cases h1 : (simNorm r r a).1 = ""
    · have h2 : (simNorm r r a).2 = "" := hp ▸ h1
      rw [if_neg (by simp [h1])]
      rw [h1, h2]
      rfl
    · rw [if_pos ⟨h1, hp ▸ h1, by rw [← hp]; simp [containsSub_self]⟩]
  · intro hq hr h1 h2 h3
    unfold checkSimilarity
    rw [if_neg (by simp [hq, hr]), if_pos ⟨h1, h2, h3⟩]

/-- Witness for C7 (amended): the spec's own scenario — stripping the
artist prefix makes the candidate a superstring of the query, score `1.0`;
and an equal parenthesis-free pair scores `1.0`. -/
theorem C7_similarity_one_witness :
    checkSimilarity "Master of Puppets" "Metallica - Master of Puppets"
        (some "Metallica") = scoreOne ∧
    checkSimilarity "Master of Puppets" "Master of Puppets" none = scoreOne := by
  constructor
  · exact (C7_similarity_one "Master of Puppets" "Metallica - Master of Puppets"
      (some "Metallica")).2 (by decide) (by decide) (by decide) (by decide) (by decide)
  · exact (C7_similarity_one "Master of Puppets" "Master of Puppets" none).1
      (by decide) (by decide) (by decide)

/-!  ## Claim C10 -/

/-- C10: when both non-empty titles normalize to the empty string (for
example when each equals the artist's name, which artist removal deletes),
`check_similarity` falls through to the sequence ratio of two empty
strings, which difflib defines as `1.0`; such a candidate therefore passes
the `0.70` gate instead of scoring `0.0`. -/
theorem C10_empty_normalization (q r art : String) (hq : q ≠ "") (hr : r ≠ "")
    (h1 : (simNorm q r (some art)).1 = "") (h2 : (simNorm q r (some art)).2 = "") :
    checkSimilarity q r (some art) = scoreOne ∧
    scoreLt (checkSimilarity q r (some art)) gateScore = false := by
  have hval : checkSimilarity q r (some art) = scoreOne := by
    unfold checkSimilarity
    rw [if_neg (by simp [hq, hr]), if_neg (by simp [h1]), h1, h2]
    rfl
  exact ⟨hval, by rw [hval]; decide⟩

/-- Witness for C10: query and candidate both `"Queen"` with artist
`"Queen"` score `1.0` and pass the gate. -/
theorem C10_empty_normalization_witness :
    checkSimilarity "Queen" "Queen" (some "Queen") = scoreOne ∧
    scoreLt (checkSimilarity "Queen" "Queen" (some "Queen")) gateScore = false :=
  C10_empty_normalization "Queen" "Queen" "Queen"
    (by decide) (by decide) (by decide) (by decide)

/-!  ## Claim C1 -/

/-- C1: every candidate the waterfall adapters auto-select scores at least
`0.70` against the query title (with the artist passed to the scorer, and
with the Discogs candidate title prefix-cleaned first), and every candidate
scoring below `0.70` is turned into "no result" (`None`). -/
theorem C1_similarity_gate (env : Env) (a t : String) :
    ((∀ d, (fetchTmdbData env a t).1 = some d →
        scoreLe gateScore (checkSimilarity t d.title (some a)) = true) ∧
     (∀ m, env.tmdbResp = some m →
        scoreLt (checkSimilarity t m.title (some a)) gateScore = true →
        (fetchTmdbData env a t).1 = none)) ∧
    ((∀ d, (fetchTheaudiodbData env a t).1 = some d →
        scoreLe gateScore (checkSimilarity t d.title (some a)) = true) ∧
     (∀ tr, env.tadbResp = some tr →
        scoreLt (checkSimilarity t tr.strTrack (some a)) gateScore = true →
        (fetchTheaudiodbData env a t).1 = none)) ∧
    ((∀ d, (fetchDiscogsData env a t).1 = some d →
        scoreLe gateScore (checkSimilarity t d.title (some a)) = true) ∧
     (∀ res, env.discogsResp = some res →
        scoreLt (checkSimilarity t (cleanDiscogsTitle (res.title.getD t) a) (some a))
            gateScore = true →
        (fetchDiscogsData env a t).1 = none)) := by
  refine ⟨⟨?_, ?_⟩, ⟨?_, ?_⟩, ⟨?_, ?_⟩⟩
  · intro d h
    unfold fetchTmdbData at h
    cases henv : env.tmdbResp with
    | none => rw [henv] at h; simp at h
    | some m =>
      rw [henv] at h
      simp only at h
      cases hs : scoreLt (checkSimilarity t m.title (some a)) gateScore with
      | true => rw [hs] at h; simp at h
      | false =>
        rw [hs] at h
        simp only [if_false, Bool.false_eq_true, Option.some.injEq] at h
        subst h
        exact scoreLe_of_not_lt _ _ hs
  · intro m henv hs
    unfold fetchTmdbData
    rw [henv]
    simp only [hs]
    rfl
  · intro d h
    unfold fetchTheaudiodbData at h
    cases henv : env.tadbResp with
    | none => rw [henv] at h; simp at h
    | some tr =>
      rw [henv] at h
      simp only at h
      cases hs : scoreLt (checkSimilarity t tr.strTrack (some a)) gateScore with
      | true => rw [hs] at h; simp at h
      | false =>
        rw [hs] at h
        simp only [if_false, Bool.false_eq_true, Option.some.injEq] at h
        subst h
        exact scoreLe_of_not_lt _ _ hs
  · intro tr henv hs
    unfold fetchTheaudiodbData
    rw [henv]
    simp only [hs]
    rfl
  · intro d h
    unfold fetchDiscogsData at h
    cases henv : env.discogsResp with
    | none => rw [henv] at h; simp at h
    | some res =>
      rw [henv] at h
      simp only at h
      cases hs : scoreLt
          (checkSimilarity t (cleanDiscogsTitle (res.title.getD t) a) (some a))
          gateScore with
      | true => rw [hs] at h; simp at h
      | false =>
        rw [hs] at h
        simp only [if_false, Bool.false_eq_true, Option.some.injEq] at h
        subst h
        exact scoreLe_of_not_lt _ _ hs
  · intro res henv hs
    unfold fetchDiscogsData
    rw [henv]
    simp only [hs]
    rfl

/-- An environment with no credentials and no provider answers. -/
def envNoKeys : Env :=
  { tmdbKey := "", fanartKey := "", discogsKey := "", discogsSecret := "",
    setlistKey := "", tadbKey := "", wikipediaAvailable := false,
    tmdbResp := none, tadbResp := none, discogsResp := none, fanartResp := none,
    setlistDateResp := none, setlistTourResp := none, wikiPage := fun _ => none }

/-- A TMDB answer whose first result is titled `"B"`. -/
def movieB : TmdbMovie :=
  { title := "B", overview := "", releaseDate := "", posterPath := "", backdropPath := "" }

/-- An environment where only TMDB is configured and answers `movieB`. -/
def envTmdbHit : Env := { envNoKeys with
  tmdbKey := "k"
  tmdbResp := some movieB }

/-- The record `fetch_tmdb_data` builds from `movieB` for the query
`("A", "B")`. -/
def recB : MetaRec :=
  { isConcert := true, isMusicVideo := false, title := "B", artist := "A",
    album := "", plot := "", year := "", director := "", genre := "Concert",
    posterUrl := some "", fanartUrl := some "", mbid := none }

/-- Witness for C1: the accepted TMDB candidate `"B"` for query `"B"`
scores at least `0.70`. -/
theorem C1_similarity_gate_witness :
    scoreLe gateScore (checkSimilarity "B" recB.title (some "A")) = true :=
  (C1_similarity_gate envTmdbHit "A" "B").1.1 recB (by decide)

/-!  ## Waterfall lemmas -/

/-- The TMDB adapter accepts only concert-classified records. -/
theorem fetchTmdb_isConcert (env : Env) (a t : String) (d : MetaRec)
    (h : (fetchTmdbData env a t).1 = some d) : d.isConcert = true := by
  unfold fetchTmdbData at h
  cases henv : env.tmdbResp with
  | none => rw [henv] at h; simp at h
  | some m =>
    rw [henv] at h
    simp only at h
    split at h
    · simp at h
    · simp only [Option.some.injEq] at h
      rw [← h]

/-- Every call a by-date setlist fetch performs is a setlist-by-date call. -/
theorem setlistByDate_log (env : Env) (a ds : String) :
    ∀ c ∈ (fetchSetlistByDate env a ds).2, c = Call.setlistDate := by
  intro c hc
  unfold fetchSetlistByDate at hc
  split at hc
  · simp at hc
  · split at hc
    · simp at hc
    · simp at hc; exact hc

/-- Every call a by-tour setlist fetch performs is a setlist-by-tour call. -/
theorem setlistByTour_log (env : Env) (a tn y : String) :
    ∀ c ∈ (fetchSetlistByTour env a tn y).2, c = Call.setlistTour := by
  intro c hc
  unfold fetchSetlistByTour at hc
  split at hc
  · simp at hc
  · simp at hc; exact hc

/-- Every call a Fanart.tv fetch performs is a Fanart.tv call. -/
theorem fetchFanart_log (env : Env) (m : String) :
    ∀ c ∈ (fetchFanartData env m).2, c = Call.fanart := by
  intro c hc
  unfold fetchFanartData at hc
  split at hc
  · simp at hc
  · simp at hc; exact hc

/-- With an absent setlist key, a setlist fetch performs no call. -/
theorem setlist_no_call (env : Env) (a ds tn y : String) (h : env.setlistKey = "") :
    (fetchSetlistByDate env a ds).2 = [] ∧ (fetchSetlistByTour env a tn y).2 = [] := by
  constructor
  · unfold fetchSetlistByDate; rw [if_pos h]
  · unfold fetchSetlistByTour; rw [if_pos h]

/-- With an absent setlist key, a by-date setlist fetch performs no call. -/
theorem setlistByDate_no_call (env : Env) (a ds : String) (h : env.setlistKey = "") :
    (fetchSetlistByDate env a ds).2 = [] := by
  unfold fetchSetlistByDate; rw [if_pos h]

/-- With an absent setlist key, a by-tour setlist fetch performs no call. -/
theorem setlistByTour_no_call (env : Env) (a tn y : String) (h : env.setlistKey = "") :
    (fetchSetlistByTour env a tn y).2 = [] := by
  unfold fetchSetlistByTour; rw [if_pos h]

/-- With an absent Fanart.tv key, a Fanart.tv fetch performs no call. -/
theorem fanart_no_call (env : Env) (m : String) (h : env.fanartKey = "") :
    (fetchFanartData env m).2 = [] := by
  unfold fetchFanartData; rw [if_pos h]

/-- Every call the TMDB phase performs is a TMDB call or a setlist call. -/
theorem tmdbPhase_log (env : Env) (a t : String) (date : Option String) :
    ∀ c ∈ (scrapeTmdbPhase env a t date).2,
      c = Call.tmdb ∨ c = Call.setlistDate ∨ c = Call.setlistTour := by
  intro c hc
  unfold scrapeTmdbPhase at hc
  split at hc
  · simp at hc
  · dsimp only at hc
    cases hfd : (fetchTmdbData env a t).1 with
    | none =>
      rw [hfd] at hc
      simp only at hc
      have h2 : (fetchTmdbData env a t).2 = [Call.tmdb] := rfl
      rw [h2] at hc
      simp at hc
      simp [hc]
    | some d =>
      rw [hfd] at hc
      simp only at hc
      have h2 : (fetchTmdbData env a t).2 = [Call.tmdb] := rfl
      rw [h2] at hc
      rw [List.mem_append, List.mem_append] at hc
      rcases hc with (hc | hc) | hc
      · simp at hc; simp [hc]
      · repeat' split at hc
        all_goals first
          | simp at hc
          | exact Or.inr (Or.inl (setlistByDate_log env a _ c hc))
          | exact Or.inr (Or.inr (setlistByTour_log env a _ _ c hc))
      · repeat' split at hc
        all_goals first
          | simp at hc
          | exact Or.inr (Or.inl (setlistByDate_log env a _ c hc))
          | exact Or.inr (Or.inr (setlistByTour_log env a _ _ c hc))

/-- The calls `fanartFill` performs: none, or exactly those of one
Fanart.tv fetch. -/
theorem fanartFill_snd (env : Env) (found : Bool) (poster fanart mbid : Option String) :
    (fanartFill env found poster fanart mbid).2.2 = [] ∨
    (fanartFill env found poster fanart mbid).2.2 = (fetchFanartData env (mbid.getD "")).2 := by
  unfold fanartFill
  repeat' split
  all_goals dsimp only
  all_goals
    first
      | exact Or.inl rfl
      | (cases hff : (fetchFanartData env (mbid.getD "")).1 with
          | some fd => exact Or.inr rfl
          | none => exact Or.inr rfl)

/-- Every call `fanartFill` performs is a Fanart.tv call. -/
theorem fanartFill_log (env : Env) (found : Bool) (poster fanart mbid : Option String) :
    ∀ c ∈ (fanartFill env found poster fanart mbid).2.2, c = Call.fanart := by
  intro c hc
  rcases fanartFill_snd env found poster fanart mbid with h | h
  · rw [h] at hc; simp at hc
  · rw [h] at hc; exact fetchFanart_log env _ c hc

/-- The calls `discogsRecovery` performs: none, or exactly those of one
Discogs fetch. -/
theorem discogsRecovery_snd (env : Env) (a t : String) (found : Bool)
    (poster : Option String) (discogsData : Option MetaRec) :
    (discogsRecovery env a t found poster discogsData).2 = [] ∨
    (discogsRecovery env a t found poster discogsData).2 = (fetchDiscogsData env a t).2 := by
  unfold discogsRecovery
  repeat' split
  all_goals dsimp only
  all_goals
    first
      | exact Or.inl rfl
      | (cases hfd : (fetchDiscogsData env a t).1 with
          | some dg => exact Or.inr rfl
          | none => exact Or.inr rfl)
      | (cases discogsData with
          | some dg => exact Or.inl rfl
          | none => exact Or.inl rfl)

/-- Every call `discogsRecovery` performs is a Discogs call. -/
theorem discogsRecovery_log (env : Env) (a t : String) (found : Bool)
    (poster : Option String) (discogsData : Option MetaRec) :
    ∀ c ∈ (discogsRecovery env a t found poster discogsData).2, c = Call.discogs := by
  intro c hc
  rcases discogsRecovery_snd env a t found poster discogsData with h | h
  · rw [h] at hc; simp at hc
  · rw [h] at hc
    have hl : c ∈ [Call.discogs] := hc
    simpa using hl

/-- Every call the fallback phase performs is a TheAudioDB, Discogs or
Fanart.tv call. -/
theorem fallback_log (env : Env) (a t : String) :
    ∀ c ∈ (scrapeFallbackPhase env a t).2,
      c = Call.tadb ∨ c = Call.discogs ∨ c = Call.fanart := by
  intro c hc
  unfold scrapeFallbackPhase at hc
  dsimp only at hc
  rw [List.mem_append, List.mem_append, List.mem_append] at hc
  rcases hc with ((hc | hc) | hc) | hc
  · have hl : c ∈ [Call.tadb] := hc
    simp at hl
    simp [hl]
  · split at hc
    · have hdd : (fetchDiscogsData env a t).2 = [Call.discogs] := rfl
      rw [hdd] at hc
      simp at hc
      simp [hc]
    · simp at hc
  · exact Or.inr (Or.inr (fanartFill_log env _ _ _ _ c hc))
  · exact Or.inr (Or.inl (discogsRecovery_log env a t _ _ _ c hc))

/-- With an absent TMDB key the TMDB phase is skipped entirely. -/
theorem tmdbPhase_key_none (env : Env) (a t : String) (date : Option String)
    (h : env.tmdbKey = "") : scrapeTmdbPhase env a t date = (none, []) := by
  unfold scrapeTmdbPhase
  rw [if_pos h]

/-- When TMDB yields no accepted candidate the TMDB phase yields none. -/
theorem tmdbPhase_none (env : Env) (a t : String) (date : Option String)
    (h : (fetchTmdbData env a t).1 = none) :
    (scrapeTmdbPhase env a t date).1 = none := by
  unfold scrapeTmdbPhase
  split
  · rfl
  · dsimp only
    rw [h]

/-- When the key is present and TMDB accepts a candidate, the TMDB phase
returns a record with the candidate's concert classification. -/
theorem tmdbPhase_success (env : Env) (a t : String) (date : Option String)
    (d : MetaRec) (hk : env.tmdbKey ≠ "") (hf : (fetchTmdbData env a t).1 = some d) :
    ∃ d', (scrapeTmdbPhase env a t date).1 = some d' ∧ d'.isConcert = d.isConcert := by
  unfold scrapeTmdbPhase
  rw [if_neg hk]
  dsimp only
  rw [hf]
  refine ⟨_, rfl, ?_⟩
  rw [apply_ite MetaRec.isConcert]
  simp

/-- When the TMDB phase resolves, `scrape_metadata` returns its result and
performs only its calls. -/
theorem scrapeMetadata_eq_tmdb (env : Env) (a t : String) (date : Option String)
    (d : MetaRec) (h : (scrapeTmdbPhase env a t date).1 = some d) :
    scrapeMetadata env a t date = (some d, (scrapeTmdbPhase env a t date).2) := by
  unfold scrapeMetadata
  dsimp only
  rw [h]

/-- When the TMDB phase yields nothing, `scrape_metadata` continues with
the fallback phase. -/
theorem scrapeMetadata_fallback (env : Env) (a t : String) (date : Option String)
    (h : (scrapeTmdbPhase env a t date).1 = none) :
    scrapeMetadata env a t date =
      ((scrapeFallbackPhase env a t).1,
       (scrapeTmdbPhase env a t date).2 ++ (scrapeFallbackPhase env a t).2) := by
  unfold scrapeMetadata
  dsimp only
  rw [h]

/-- When TheAudioDB yields nothing and Discogs is skipped or yields
nothing, the fallback phase fails. -/
theorem fallback_none (env : Env) (a t : String)
    (h2 : (fetchTheaudiodbData env a t).1 = none)
    (h3 : env.discogsKey = "" ∨ env.discogsSecret = "" ∨
      (fetchDiscogsData env a t).1 = none) :
    (scrapeFallbackPhase env a t).1 = none := by
  unfold scrapeFallbackPhase
  dsimp only
  rw [h2]
  rcases h3 with h | h | h
  · simp [h]
  · simp [h]
  · simp
    split
    · exact h
    · rfl

/-!  ## Claim C5 -/

/-- C5: waterfall exhaustion.  When TMDB is skipped or yields no accepted
candidate, TheAudioDB yields no accepted candidate, and Discogs is skipped
(missing key or secret) or yields no accepted candidate, `scrape_metadata`
returns `None` — never a partially-filled record (image-only recoveries are
guarded by `found_metadata` and cannot create a record). -/
theorem C5_exhaustion (env : Env) (a t : String) (date : Option String)
    (h1 : env.tmdbKey = "" ∨ (fetchTmdbData env a t).1 = none)
    (h2 : (fetchTheaudiodbData env a t).1 = none)
    (h3 : env.discogsKey = "" ∨ env.discogsSecret = "" ∨
      (fetchDiscogsData env a t).1 = none) :
    (scrapeMetadata env a t date).1 = none := by
  have hph : (scrapeTmdbPhase env a t date).1 = none := by
    rcases h1 with h | h
    · rw [tmdbPhase_key_none env a t date h]
    · exact tmdbPhase_none env a t date h
  rw [scrapeMetadata_fallback env a t date hph]
  exact fallback_none env a t h2 h3

/-- Witness for C5: with no credentials and no answers, resolution fails. -/
theorem C5_exhaustion_witness :
    (scrapeMetadata envNoKeys "A" "B" none).1 = none :=
  C5_exhaustion envNoKeys "A" "B" none (Or.inl rfl) rfl (Or.inl rfl)

/-!  ## Claim C2 (corrected) -/

/-- The TMDB-success environment extended with a setlist.fm key. -/
def envTmdbSetlist : Env := { envTmdbHit with
  setlistKey := "s"
  setlistTourResp := some "1. Song" }

/-- Counterexample to C2 as stated: with a configured setlist.fm key, the
accepted TMDB candidate `"B"` triggers a Setlist-Service network call (the
tour-name lookup) before `scrape_metadata` returns, so it is not the case
that no other provider adapter is invoked. -/
theorem C2_counterexample :
    (fetchTmdbData envTmdbSetlist "A" "B").1.isSome = true ∧
    Call.setlistTour ∈ (scrapeMetadata envTmdbSetlist "A" "B" none).2 := by
  constructor
  · decide
  · decide

/-- C2 (amended): when the Primary provider's key is present and its
candidate passes the gate, `scrape_metadata` returns immediately with a
concert-classified record, and the only adapters invoked are TMDB itself
and (possibly) the Setlist Service for the setlist attachment — never
TheAudioDB, Discogs, or Fanart.tv. -/
theorem C2_short_circuit (env : Env) (a t : String) (date : Option String)
    (d : MetaRec) (hk : env.tmdbKey ≠ "")
    (hf : (fetchTmdbData env a t).1 = some d) :
    ∃ r, (scrapeMetadata env a t date).1 = some r ∧ r.isConcert = true ∧
      ∀ c ∈ (scrapeMetadata env a t date).2,
        c = Call.tmdb ∨ c = Call.setlistDate ∨ c = Call.setlistTour := by
  obtain ⟨d', hd', hco⟩ := tmdbPhase_success env a t date d hk hf
  have hcon : d.isConcert = true := fetchTmdb_isConcert env a t d hf
  rw [scrapeMetadata_eq_tmdb env a t date d' hd']
  refine ⟨d', rfl, by rw [hco, hcon], ?_⟩
  intro c hc
  exact tmdbPhase_log env a t date c hc

/-- Witness for C2 (amended), at the TMDB-success environment. -/
theorem C2_short_circuit_witness :
    ∃ r, (scrapeMetadata envTmdbHit "A" "B" none).1 = some r ∧
      r.isConcert = true ∧
      ∀ c ∈ (scrapeMetadata envTmdbHit "A" "B" none).2,
        c = Call.tmdb ∨ c = Call.setlistDate ∨ c = Call.setlistTour :=
  C2_short_circuit envTmdbHit "A" "B" none recB (by decide) (by decide)

/-- With an absent setlist.fm key, every call the TMDB phase performs is
the TMDB call itself. -/
theorem tmdbPhase_log_no_setlist (env : Env) (a t : String) (date : Option String)
    (h : env.setlistKey = "") :
    ∀ c ∈ (scrapeTmdbPhase env a t date).2, c = Call.tmdb := by
  intro c hc
  unfold scrapeTmdbPhase at hc
  split at hc
  · simp at hc
  · dsimp only at hc
    cases hfd : (fetchTmdbData env a t).1 with
    | none =>
      rw [hfd] at hc
      have hl : c ∈ [Call.tmdb] := hc
      simpa using hl
    | some d =>
      rw [hfd] at hc
      simp only at hc
      have h2 : (fetchTmdbData env a t).2 = [Call.tmdb] := rfl
      rw [h2] at hc
      rw [List.mem_append, List.mem_append] at hc
      rcases hc with (hc | hc) | hc
      · simpa using hc
      · repeat' split at hc
        all_goals
          first
            | simp at hc
            | (rw [setlistByDate_no_call env a _ h] at hc; simp at hc)
            | (rw [setlistByTour_no_call env a _ _ h] at hc; simp at hc)
      · repeat' split at hc
        all_goals
          first
            | simp at hc
            | (rw [setlistByDate_no_call env a _ h] at hc; simp at hc)
            | (rw [setlistByTour_no_call env a _ _ h] at hc; simp at hc)

/-- With an absent Discogs key the poster-recovery step performs no call. -/
theorem discogsRecovery_no_key (env : Env) (a t : String) (found : Bool)
    (poster : Option String) (dd : Option MetaRec) (h : env.discogsKey = "") :
    (discogsRecovery env a t found poster dd).2 = [] := by
  unfold discogsRecovery
  repeat' split
  all_goals dsimp only
  all_goals
    first
      | rfl
      | (cases dd with
          | some dg => rfl
          | none => rfl)
      | simp_all

/-- With an absent Discogs key the fallback phase makes no Discogs call. -/
theorem fallback_no_discogs (env : Env) (a t : String) (h : env.discogsKey = "") :
    Call.discogs ∉ (scrapeFallbackPhase env a t).2 := by
  intro hc
  unfold scrapeFallbackPhase at hc
  dsimp only at hc
  rw [List.mem_append, List.mem_append, List.mem_append] at hc
  rcases hc with ((hc | hc) | hc) | hc
  · have hl : Call.discogs ∈ [Call.tadb] := hc
    simp at hl
  · split at hc
    · rename_i hcond
      exact hcond.2.1 h
    · simp at hc
  · have := fanartFill_log env _ _ _ _ _ hc
    simp at this
  · rw [discogsRecovery_no_key env a t _ _ _ h] at hc
    simp at hc

/-- With an absent Fanart.tv key the fallback phase makes no Fanart.tv
call. -/
theorem fallback_no_fanart (env : Env) (a t : String) (h : env.fanartKey = "") :
    Call.fanart ∉ (scrapeFallbackPhase env a t).2 := by
  intro hc
  unfold scrapeFallbackPhase at hc
  dsimp only at hc
  rw [List.mem_append, List.mem_append, List.mem_append] at hc
  rcases hc with ((hc | hc) | hc) | hc
  · have hl : Call.fanart ∈ [Call.tadb] := hc
    simp at hl
  · split at hc
    · have hdd : (fetchDiscogsData env a t).2 = [Call.discogs] := rfl
      rw [hdd] at hc
      simp at hc
    · simp at hc
  · rcases fanartFill_snd env _ _ _ _ with hf | hf
    · rw [hf] at hc; simp at hc
    · rw [hf, fanart_no_call env _ h] at hc; simp at hc
  · have := discogsRecovery_log env a t _ _ _ _ hc
    simp at this

/-!  ## Claim C6 (corrected) -/

/-- Counterexample to C6 as stated: TheAudioDB's adapter performs no
credential check, so even with every key absent (including `tadb_key`) the
waterfall still issues a TheAudioDB network request. -/
theorem C6_counterexample :
    envNoKeys.tadbKey = "" ∧
    (scrapeMetadata envNoKeys "A" "B" none).2 = [Call.tadb] := by
  constructor
  · rfl
  · decide

/-- C6 (amended): an absent credential short-circuits the Primary movie
database (caller-side guard), the Release Database (both the fallback
lookup and the image-recovery step guard on the key), the Fan-Art Image
Service, and the Setlist Service — no network call to that provider is made
anywhere in the waterfall.  The Music-Video Database (TheAudioDB) is the
exception: its adapter checks nothing and is always queried. -/
theorem C6_missing_key_skips (env : Env) (a t : String) (date : Option String) :
    (env.tmdbKey = "" → Call.tmdb ∉ (scrapeMetadata env a t date).2) ∧
    (env.discogsKey = "" → Call.discogs ∉ (scrapeMetadata env a t date).2) ∧
    (env.fanartKey = "" → Call.fanart ∉ (scrapeMetadata env a t date).2) ∧
    (env.setlistKey = "" →
      Call.setlistDate ∉ (scrapeMetadata env a t date).2 ∧
      Call.setlistTour ∉ (scrapeMetadata env a t date).2) := by
  refine ⟨?_, ?_, ?_, ?_⟩
  · intro h hc
    rw [scrapeMetadata_fallback env a t date
        (by rw [tmdbPhase_key_none env a t date h])] at hc
    rw [tmdbPhase_key_none env a t date h] at hc
    simp only [List.nil_append] at hc
    rcases fallback_log env a t Call.tmdb hc with h' | h' | h' <;> simp at h'
  · intro h hc
    cases hph : (scrapeTmdbPhase env a t date).1 with
    | some d =>
      rw [scrapeMetadata_eq_tmdb env a t date d hph] at hc
      rcases tmdbPhase_log env a t date Call.discogs hc with h' | h' | h' <;> simp at h'
    | none =>
      rw [scrapeMetadata_fallback env a t date hph] at hc
      simp only [List.mem_append] at hc
      rcases hc with hc | hc
      · rcases tmdbPhase_log env a t date Call.discogs hc with h' | h' | h' <;>
          simp at h'
      · exact fallback_no_discogs env a t h hc
  · intro h hc
    cases hph : (scrapeTmdbPhase env a t date).1 with
    | some d =>
      rw [scrapeMetadata_eq_tmdb env a t date d hph] at hc
      rcases tmdbPhase_log env a t date Call.fanart hc with h' | h' | h' <;> simp at h'
    | none =>
      rw [scrapeMetadata_fallback env a t date hph] at hc
      simp only [List.mem_append] at hc
      rcases hc with hc | hc
      · rcases tmdbPhase_log env a t date Call.fanart hc with h' | h' | h' <;>
          simp at h'
      · exact fallback_no_fanart env a t h hc
  · intro h
    constructor
    · intro hc
      cases hph : (scrapeTmdbPhase env a t date).1 with
      | some d =>
        rw [scrapeMetadata_eq_tmdb env a t date d hph] at hc
        have := tmdbPhase_log_no_setlist env a t date h Call.setlistDate hc
        simp at this
      | none =>
        rw [scrapeMetadata_fallback env a t date hph] at hc
        simp only [List.mem_append] at hc
        rcases hc with hc | hc
        · have := tmdbPhase_log_no_setlist env a t date h Call.setlistDate hc
          simp at this
        · rcases fallback_log env a t Call.setlistDate hc with h' | h' | h' <;>
            simp at h'
    · intro hc
      cases hph : (scrapeTmdbPhase env a t date).1 with
      | some d =>
        rw [scrapeMetadata_eq_tmdb env a t date d hph] at hc
        have := tmdbPhase_log_no_setlist env a t date h Call.setlistTour hc
        simp at this
      | none =>
        rw [scrapeMetadata_fallback env a t date hph] at hc
        simp only [List.mem_append] at hc
        rcases hc with hc | hc
        · have := tmdbPhase_log_no_setlist env a t date h Call.setlistTour hc
          simp at this
        · rcases fallback_log env a t Call.setlistTour hc with h' | h' | h' <;>
            simp at h'

/-- Witness for C6 (amended): with every key absent, no TMDB, Discogs,
Fanart.tv or setlist.fm call appears in the waterfall's log. -/
theorem C6_missing_key_skips_witness :
    Call.tmdb ∉ (scrapeMetadata envNoKeys "A" "B" none).2 ∧
    Call.discogs ∉ (scrapeMetadata envNoKeys "A" "B" none).2 ∧
    Call.fanart ∉ (scrapeMetadata envNoKeys "A" "B" none).2 ∧
    Call.setlistDate ∉ (scrapeMetadata envNoKeys "A" "B" none).2 ∧
    Call.setlistTour ∉ (scrapeMetadata envNoKeys "A" "B" none).2 :=
  ⟨(C6_missing_key_skips envNoKeys "A" "B" none).1 rfl,
   (C6_missing_key_skips envNoKeys "A" "B" none).2.1 rfl,
   (C6_missing_key_skips envNoKeys "A" "B" none).2.2.1 rfl,
   ((C6_missing_key_skips envNoKeys "A" "B" none).2.2.2 rfl).1,
   ((C6_missing_key_skips envNoKeys "A" "B" none).2.2.2 rfl).2⟩

/-!  ## Enrichment lemmas -/

/-- Frame of the Discogs enrichment step: every field other than year,
album and poster is untouched, and those three change only when empty. -/
theorem enrichDiscogs_frame (env : Env) (a t : String) (e : EnrichRec) :
    (enrichDiscogsStep env a t e).artist = e.artist ∧
    (enrichDiscogsStep env a t e).title = e.title ∧
    (enrichDiscogsStep env a t e).plot = e.plot ∧
    (enrichDiscogsStep env a t e).fanartUrl = e.fanartUrl ∧
    (enrichDiscogsStep env a t e).mbid = e.mbid ∧
    (enrichDiscogsStep env a t e).isConcert = e.isConcert ∧
    (enrichDiscogsStep env a t e).date = e.date ∧
    (enrichDiscogsStep env a t e).releaseDate = e.releaseDate ∧
    (e.year ≠ "" → (enrichDiscogsStep env a t e).year = e.year) ∧
    (e.album ≠ "" → (enrichDiscogsStep env a t e).album = e.album) ∧
    (e.posterUrl ≠ "" → (enrichDiscogsStep env a t e).posterUrl = e.posterUrl) := by
  unfold enrichDiscogsStep
  split
  · cases hfd : (fetchDiscogsData env a t).1 with
    | some dg =>
      refine ⟨rfl, rfl, rfl, rfl, rfl, rfl, rfl, rfl, ?_, ?_, ?_⟩
      · intro hy
        exact if_neg (by simp [hy])
      · intro ha
        exact if_neg (by simp [ha])
      · intro hp
        exact if_neg (by simp [hp])
    | none => simp
  · simp

/-- Frame of the Wikipedia enrichment step: only the plot can change, and
only when it is shorter than 50 characters. -/
theorem enrichWiki_frame (env : Env) (a t : String) (e : EnrichRec) :
    (enrichWikiStep env a t e).artist = e.artist ∧
    (enrichWikiStep env a t e).title = e.title ∧
    (enrichWikiStep env a t e).album = e.album ∧
    (enrichWikiStep env a t e).year = e.year ∧
    (enrichWikiStep env a t e).posterUrl = e.posterUrl ∧
    (enrichWikiStep env a t e).fanartUrl = e.fanartUrl ∧
    (enrichWikiStep env a t e).mbid = e.mbid ∧
    (enrichWikiStep env a t e).isConcert = e.isConcert ∧
    (enrichWikiStep env a t e).date = e.date ∧
    (enrichWikiStep env a t e).releaseDate = e.releaseDate ∧
    (50 ≤ e.plot.length → (enrichWikiStep env a t e).plot = e.plot) := by
  unfold enrichWikiStep
  split
  · rename_i hcond
    cases hw : wikiLookup env [a ++ " " ++ t ++ " (song)", t ++ " (song)", t] with
    | some summary =>
      refine ⟨rfl, rfl, rfl, rfl, rfl, rfl, rfl, rfl, rfl, rfl, ?_⟩
      intro hlen
      rcases hcond.2 with hp | hp
      · rw [hp] at hlen
        exact absurd hlen (by decide)
      · exact absurd hlen (not_le.mpr hp)
    | none => simp
  · simp

/-- The setlist step of `deep_enrich_data` never modifies the record when
it returns normally: the fetched setlist is a formatted string, and the
JSON-shaped song extraction either raises `TypeError` (when the text
contains `"sets"`) or collects no songs at all, so nothing is appended. -/
theorem setlistStep_ok (env : Env) (a t y : String) (e : EnrichRec) :
    ∀ e', enrichSetlistStep env a t y e = Except.ok e' → e' = e := by
  intro e' h
  unfold enrichSetlistStep at h
  split at h
  · rename_i text heq
    dsimp only at h
    split at h
    · by_cases ht : text = ""
      · rw [if_neg (by simp [ht])] at h
        injection h with h
        exact h.symm
      · by_cases hs : containsSub text "sets" = true
        · rw [if_pos ht, if_pos hs] at h
          exact Except.noConfusion h
        · rw [if_pos ht, if_neg hs] at h
          injection h with h
          exact h.symm
    · injection h with h
      exact h.symm
  · dsimp only at h
    split at h <;> (injection h with h; exact h.symm)

/-- A plot already carrying a setlist marker makes the setlist step skip
entirely. -/
theorem setlistStep_marker_skip (env : Env) (a t y : String) (e : EnrichRec)
    (h : containsSub e.plot "[SETLIST]" = true ∨ containsSub e.plot "[SCALETTA" = true) :
    enrichSetlistStep env a t y e = Except.ok e := by
  unfold enrichSetlistStep
  rcases h with h | h
  · rw [if_neg (by simp [h])]
  · rw [if_neg (by simp [h])]

/-- Frame of the Fanart.tv enrichment step: only poster and fanart can
change, and only when empty. -/
theorem enrichFanart_frame (env : Env) (e : EnrichRec) :
    (enrichFanartStep env e).artist = e.artist ∧
    (enrichFanartStep env e).title = e.title ∧
    (enrichFanartStep env e).album = e.album ∧
    (enrichFanartStep env e).year = e.year ∧
    (enrichFanartStep env e).plot = e.plot ∧
    (enrichFanartStep env e).mbid = e.mbid ∧
    (enrichFanartStep env e).isConcert = e.isConcert ∧
    (enrichFanartStep env e).date = e.date ∧
    (enrichFanartStep env e).releaseDate = e.releaseDate ∧
    (e.posterUrl ≠ "" → (enrichFanartStep env e).posterUrl = e.posterUrl) ∧
    (e.fanartUrl ≠ "" → (enrichFanartStep env e).fanartUrl = e.fanartUrl) := by
  unfold enrichFanartStep
  split
  · split
    · cases hfd : (fetchFanartData env (e.mbid.getD "")).1 with
      | some fd =>
        refine ⟨rfl, rfl, rfl, rfl, rfl, rfl, rfl, rfl, rfl, ?_, ?_⟩
        · intro hp
          exact if_neg hp
        · intro hf
          exact if_neg hf
      | none => simp
    · simp
  · simp

/-!  ## Claim C4 (corrected) -/

/-- A seed record with a 49-character plot and all other fields filled. -/
def xShortPlot : EnrichRec :=
  { artist := "A", title := "B", album := "Al", year := "2000",
    plot := "xxxxxxxxxxxxxxxxxxxxxxxxxxxxxxxxxxxxxxxxxxxxxxxxx",
    posterUrl := "p", fanartUrl := "f", mbid := none, isConcert := some false,
    date := "", releaseDate := "" }

/-- An environment whose Wikipedia lookup answers the four-character,
keyword-carrying summary `"rock"` for the first title variant. -/
def envWiki : Env := { envNoKeys with
  wikipediaAvailable := true
  wikiPage := fun q => if q = "A B (song)" then some "rock" else none }

/-- Counterexample to C4 as stated: on a record whose non-empty plot has 49
characters, enrichment replaces the plot with the 4-character Wikipedia
summary `"rock"` — the field changes and the enriched value is shorter than
the input value. -/
theorem C4_counterexample :
    deepEnrichData envWiki xShortPlot =
      Except.ok { xShortPlot with plot := "rock" } ∧
    xShortPlot.plot ≠ "" ∧
    ({ xShortPlot with plot := "rock" } : EnrichRec).plot.length
      < xShortPlot.plot.length ∧
    ({ xShortPlot with plot := "rock" } : EnrichRec).plot ≠ xShortPlot.plot :=
  ⟨rfl, by decide, by decide, by decide⟩

/-- C4 (amended): for every field other than the plot, enrichment changes
the field only when the input value is empty, so completeness never
decreases there; the plot changes only when the input plot is shorter than
50 characters, and the Wikipedia replacement may then be of any length —
including shorter than a non-empty sub-50-character input plot. -/
theorem C4_no_completeness_loss (env : Env) (x y : EnrichRec)
    (h : deepEnrichData env x = Except.ok y) :
    y.artist = x.artist ∧ y.title = x.title ∧ y.mbid = x.mbid ∧
    y.isConcert = x.isConcert ∧ y.date = x.date ∧ y.releaseDate = x.releaseDate ∧
    (y.year = x.year ∨ x.year = "") ∧
    (y.album = x.album ∨ x.album = "") ∧
    (y.posterUrl = x.posterUrl ∨ x.posterUrl = "") ∧
    (y.fanartUrl = x.fanartUrl ∨ x.fanartUrl = "") ∧
    (y.plot = x.plot ∨ x.plot.length < 50) := by
  unfold deepEnrichData at h
  split at h
  · injection h with h
    subst h
    simp
  · dsimp only at h
    split at h
    · exact Except.noConfusion h
    · rename_i e3 heq
      injection h with h
      have he3 : e3 = enrichWikiStep env x.artist x.title
          (enrichDiscogsStep env x.artist x.title x) :=
        setlistStep_ok env x.artist x.title x.year _ e3 heq
      subst h
      subst he3
      obtain ⟨d1a, d1t, d1p, d1f, d1m, d1c, d1d, d1r, d1y, d1al, d1po⟩ :=
        enrichDiscogs_frame env x.artist x.title x
      obtain ⟨w2a, w2t, w2al, w2y, w2po, w2f, w2m, w2c, w2d, w2r, w2p⟩ :=
        enrichWiki_frame env x.artist x.title (enrichDiscogsStep env x.artist x.title x)
      obtain ⟨f4a, f4t, f4al, f4y, f4p, f4m, f4c, f4d, f4r, f4po, f4f⟩ :=
        enrichFanart_frame env
          (enrichWikiStep env x.artist x.title (enrichDiscogsStep env x.artist x.title x))
      refine ⟨?_, ?_, ?_, ?_, ?_, ?_, ?_, ?_, ?_, ?_, ?_⟩
      · rw [f4a, w2a, d1a]
      · rw [f4t, w2t, d1t]
      · rw [f4m, w2m, d1m]
      · rw [f4c, w2c, d1c]
      · rw [f4d, w2d, d1d]
      · rw [f4r, w2r, d1r]
      · by_cases hY : x.year = ""
        · exact Or.inr hY
        · exact Or.inl (by rw [f4y, w2y, d1y hY])
      · by_cases hA : x.album = ""
        · exact Or.inr hA
        · exact Or.inl (by rw [f4al, w2al, d1al hA])
      · by_cases hP : x.posterUrl = ""
        · exact Or.inr hP
        · refine Or.inl ?_
          have hp2 : (enrichWikiStep env x.artist x.title
              (enrichDiscogsStep env x.artist x.title x)).posterUrl = x.posterUrl := by
            rw [w2po, d1po hP]
          rw [f4po (by rw [hp2]; exact hP), hp2]
      · by_cases hF : x.fanartUrl = ""
        · exact Or.inr hF
        · refine Or.inl ?_
          have hf2 : (enrichWikiStep env x.artist x.title
              (enrichDiscogsStep env x.artist x.title x)).fanartUrl = x.fanartUrl := by
            rw [w2f, d1f]
          rw [f4f (by rw [hf2]; exact hF), hf2]
      · by_cases hPl : x.plot.length < 50
        · exact Or.inr hPl
        · refine Or.inl ?_
          have hl2 : (enrichWikiStep env x.artist x.title
              (enrichDiscogsStep env x.artist x.title x)).plot = x.plot := by
            rw [w2p (by rw [d1p]; omega), d1p]
          rw [f4p, hl2]

/-- Witness for C4 (amended): on the short-plot record the plot disjunct
holds through the sub-50-character branch. -/
theorem C4_no_completeness_loss_witness :
    ({ xShortPlot with plot := "rock" } : EnrichRec).plot = xShortPlot.plot ∨
      xShortPlot.plot.length < 50 :=
  (C4_no_completeness_loss envWiki xShortPlot { xShortPlot with plot := "rock" }
    rfl).2.2.2.2.2.2.2.2.2.2

/-!  ## Claim C8 -/

/-- A concert record whose plot already carries the setlist marker. -/
def xMarkerPlot : EnrichRec :=
  { artist := "A", title := "B", album := "", year := "",
    plot := "[SETLIST]\n1. One", posterUrl := "", fanartUrl := "", mbid := none,
    isConcert := some true, date := "", releaseDate := "" }

/-- C8: the setlist-append step of enrichment is idempotent.  A plot that
already contains a setlist marker makes the step skip outright, and on any
normal return the step leaves the record unchanged (the song extraction
treats the fetched setlist string as JSON, so it never collects songs), so
running `deep_enrich_data` twice can never duplicate an appended setlist
block. -/
theorem C8_setlist_idempotent (env : Env) (a t y : String) (x : EnrichRec) :
    ((containsSub x.plot "[SETLIST]" = true ∨ containsSub x.plot "[SCALETTA" = true) →
      enrichSetlistStep env a t y x = Except.ok x) ∧
    (∀ x', enrichSetlistStep env a t y x = Except.ok x' → x' = x) :=
  ⟨fun h => setlistStep_marker_skip env a t y x h,
   setlistStep_ok env a t y x⟩

/-- Witness for C8: the marker-carrying record passes through the setlist
step unchanged. -/
theorem C8_setlist_idempotent_witness :
    enrichSetlistStep envNoKeys "A" "B" "" xMarkerPlot = Except.ok xMarkerPlot :=
  (C8_setlist_idempotent envNoKeys "A" "B" "" xMarkerPlot).1 (Or.inl (by decide))
